import Mathlib

/-!
Shallow embedding of `store/postgres/src/sharded_store.rs` from
InjectiveLabs/graph-node: the sharded store's routing layer (site and
store resolution), the shard-affinity classifier (`ShardData::in_shard`),
and the multi-transaction deployment protocols
(`create_deployment_internal`, `deployment_synced`).

Transactions are modelled with commit/rollback semantics: a scoped
transaction either commits (its inner effects become observable, bracketed
by begin/commit markers) or rolls back (its inner effects are discarded,
matching the "no partial visibility" contract the backing engine provides).
External collaborators that live outside this file's source (the primary
catalog, `deployment::exists`, `apply_metadata_operations_with_conn`,
`create_subgraph_version`, `promote_deployment`, `set_synced`,
`send_store_event`) are represented by oracle fields of an `Env` record:
their results and success/failure are inputs to the model, while the
routing, classification and choreography logic is translated from the
source line by line.
-/

namespace ShardedStoreModel

/-- The name of the primary shard (`PRIMARY_SHARD` in the `graph` crate). -/
def PRIMARY_SHARD : String := "primary"

/-- The reserved deployment id of the metadata subgraph; modelled from the
spec's notion of the metadata subgraph (`SubgraphDeploymentId::is_meta`). -/
def METADATA_SUBGRAPH_ID : String := "subgraphs"

/-- Deployment ids are validated strings in the source; the validation is
irrelevant here. -/
abbrev SubgraphDeploymentId := String

/-- `SubgraphDeploymentId::is_meta`: whether this id is the metadata
subgraph's reserved id. -/
def isMeta (id : SubgraphDeploymentId) : Bool := id == METADATA_SUBGRAPH_ID

/-- `primary::Site`: the immutable (deployment, shard, namespace) binding
kept in the primary catalog. -/
structure Site where
  deployment : SubgraphDeploymentId
  shard : String
  nsp : String
  deriving DecidableEq, Repr

/-- `Site::meta(shard)`: the site used for the metadata subgraph in a given
shard. Modelled from the spec: the metadata subgraph lives in the shard's
`subgraphs` namespace. -/
def Site.meta (shard : String) : Site :=
  { deployment := METADATA_SUBGRAPH_ID, shard := shard, nsp := METADATA_SUBGRAPH_ID }

/-- `MetadataType` from `graph::data::subgraph::schema`, exactly the
variants matched in `sharded_store.rs`. -/
inductive MetadataType where
  | Subgraph
  | SubgraphDeploymentAssignment
  | SubgraphDeployment
  | SubgraphManifest
  | EthereumContractDataSource
  | DynamicEthereumContractDataSource
  | EthereumContractSource
  | EthereumContractMapping
  | EthereumContractAbi
  | EthereumBlockHandlerEntity
  | EthereumBlockHandlerFilterEntity
  | EthereumCallHandlerEntity
  | EthereumContractEventHandler
  | EthereumContractDataSourceTemplate
  | EthereumContractDataSourceTemplateSource
  | SubgraphError
  deriving DecidableEq, Repr

/-- Modelled from the spec: `MetadataType::from_str` recognises exactly the
catalogued metadata kinds by their variant names and fails on anything
else (the code comment names `SubgraphVersion` as a valid metadata type
that is deliberately not in the enum). -/
def MetadataType.fromStr (s : String) : Option MetadataType :=
  if s == "Subgraph" then some .Subgraph
  else if s == "SubgraphDeploymentAssignment" then some .SubgraphDeploymentAssignment
  else if s == "SubgraphDeployment" then some .SubgraphDeployment
  else if s == "SubgraphManifest" then some .SubgraphManifest
  else if s == "EthereumContractDataSource" then some .EthereumContractDataSource
  else if s == "DynamicEthereumContractDataSource" then some .DynamicEthereumContractDataSource
  else if s == "EthereumContractSource" then some .EthereumContractSource
  else if s == "EthereumContractMapping" then some .EthereumContractMapping
  else if s == "EthereumContractAbi" then some .EthereumContractAbi
  else if s == "EthereumBlockHandlerEntity" then some .EthereumBlockHandlerEntity
  else if s == "EthereumBlockHandlerFilterEntity" then some .EthereumBlockHandlerFilterEntity
  else if s == "EthereumCallHandlerEntity" then some .EthereumCallHandlerEntity
  else if s == "EthereumContractEventHandler" then some .EthereumContractEventHandler
  else if s == "EthereumContractDataSourceTemplate" then some .EthereumContractDataSourceTemplate
  else if s == "EthereumContractDataSourceTemplateSource" then some .EthereumContractDataSourceTemplateSource
  else if s == "SubgraphError" then some .SubgraphError
  else none

/-- `impl ShardData for MetadataType`: `true` when the record kind is
stored in the deployment's own shard, `false` for the two kinds that live
in the primary (the deployment id argument is ignored by the source). -/
def MetadataType.in_shard (t : MetadataType) (_ : SubgraphDeploymentId) : Bool :=
  match t with
  | .Subgraph | .SubgraphDeploymentAssignment => false
  | .SubgraphDeployment
  | .SubgraphManifest
  | .EthereumContractDataSource
  | .DynamicEthereumContractDataSource
  | .EthereumContractSource
  | .EthereumContractMapping
  | .EthereumContractAbi
  | .EthereumBlockHandlerEntity
  | .EthereumBlockHandlerFilterEntity
  | .EthereumCallHandlerEntity
  | .EthereumContractEventHandler
  | .EthereumContractDataSourceTemplate
  | .EthereumContractDataSourceTemplateSource
  | .SubgraphError => true

/-- `MetadataOperation` from the `graph` crate: Set/Remove/Update, each
carrying the metadata entity type it targets (the payload fields that the
source matches with `..` are omitted, `in_shard` never reads them). -/
inductive MetadataOperation where
  | set (entity : MetadataType) (id : String)
  | remove (entity : MetadataType) (id : String)
  | update (entity : MetadataType) (id : String)
  deriving DecidableEq, Repr

/-- The `entity` field common to all three `MetadataOperation` variants. -/
def MetadataOperation.entity : MetadataOperation → MetadataType
  | .set e _ => e
  | .remove e _ => e
  | .update e _ => e

/-- `impl ShardData for MetadataOperation`: forwards to the entity type. -/
def MetadataOperation.in_shard (op : MetadataOperation) (id : SubgraphDeploymentId) : Bool :=
  op.entity.in_shard id

/-- `EntityKey`: deployment id, entity type name and entity id. -/
structure EntityKey where
  subgraph_id : SubgraphDeploymentId
  entity_type : String
  entity_id : String
  deriving DecidableEq, Repr

/-- Entity payloads, as an attribute list; `in_shard` never reads them. -/
abbrev Entity := List (String × String)

/-- `EntityModification` from the `graph` crate: Insert/Overwrite/Remove. -/
inductive EntityModification where
  | insert (key : EntityKey) (data : Entity)
  | overwrite (key : EntityKey) (data : Entity)
  | remove (key : EntityKey)
  deriving DecidableEq, Repr

/-- `EntityModification::entity_key`. -/
def EntityModification.entity_key : EntityModification → EntityKey
  | .insert k _ => k
  | .overwrite k _ => k
  | .remove k => k

/-- `impl ShardData for EntityModification`: metadata-keyed modifications
are classified through `MetadataType::from_str`, with `unwrap_or(false)`
for types not in the enum; data-keyed modifications compare the key's
deployment id with the target. -/
def EntityModification.in_shard (m : EntityModification) (id : SubgraphDeploymentId) : Bool :=
  let key := m.entity_key
  let mod_id := key.subgraph_id
  if isMeta mod_id then
    match MetadataType.fromStr key.entity_type with
    | some typ => typ.in_shard id
    | none => false
  else
    mod_id == id

/-- `impl ShardData for Vec`: `self.iter().all(|op| op.in_shard(id))`,
generic over the element classifier. -/
def listInShard (f : α → SubgraphDeploymentId → Bool) (ops : List α)
    (id : SubgraphDeploymentId) : Bool :=
  ops.all (fun op => f op id)

/-- The `StoreError` variants this file produces or matches, plus `other`
standing for any backing-engine error passed through unchanged. -/
inductive StoreError where
  | DeploymentNotFound (id : String)
  | UnknownShard (shard : String)
  | ConstraintViolation (msg : String)
  | other (what : String)
  deriving DecidableEq, Repr

/-- Result of a call that may also abort the process: `panicked` models a
Rust `assert!`/`unwrap`/`expect` failure, `err` a returned `Err`. -/
inductive Outcome (α : Type) where
  | panicked (msg : String)
  | err (e : StoreError)
  | ok (a : α)
  deriving DecidableEq, Repr

/-- Shard store handles are opaque; a number suffices to tell them apart. -/
abbrev StoreHandle := Nat

/-- `ShardedStore`: the primary store handle and the map from shard name to
store handle (the `HashMap` is modelled as an association list). -/
structure ShardedStore where
  primary : StoreHandle
  stores : List (String × StoreHandle)
  deriving DecidableEq, Repr

/-- `HashMap::get` on the shard map. -/
def lookupShard (stores : List (String × StoreHandle)) (shard : String) : Option StoreHandle :=
  (stores.find? (fun p => p.fst == shard)).map Prod.snd

/-- `ShardedStore::new`: asserts that exactly one shard is configured and
that the primary shard is present; both checks abort on failure. -/
def ShardedStore.new (stores : List (String × StoreHandle)) : Outcome ShardedStore :=
  if stores.length == 1 then
    match lookupShard stores PRIMARY_SHARD with
    | some p => .ok { primary := p, stores := stores }
    | none => .panicked "we always have a primary store"
  else
    .panicked "The sharded store can only handle one shard for now"

/-- One element of a published change-set; its contents are opaque to the
routing layer. -/
structure Change where
  tag : String
  deriving DecidableEq, Repr

/-- `StoreEvent`: the ordered collection of changes of one logical
transaction. -/
structure StoreEvent where
  changes : List Change
  deriving DecidableEq, Repr

/-- `SubgraphDeploymentEntity` as used here: the optional graft base and
the metadata-creation operations `create_operations(&schema.id)` yields
(modelled as a function of the schema id, since `create_operations` lives
outside this source file). -/
structure SubgraphDeploymentEntity where
  graft_base : Option SubgraphDeploymentId
  createOps : SubgraphDeploymentId → List MetadataOperation

/-- The slice of `Schema` this file reads: its deployment id. -/
structure Schema where
  id : SubgraphDeploymentId

/-- Oracle for everything behind the connections: the primary catalog's
sites, per-shard deployment existence, and the results and success
of the operations implemented in `primary.rs` / `deployment.rs` /
`store.rs` (outside this source file). A `false` success flag models that
operation returning `Err`. -/
structure Env where
  sites : SubgraphDeploymentId → Option Site
  dShardExists : SubgraphDeploymentId → Bool
  applyOpsEvent : List MetadataOperation → StoreEvent
  applyOpsOk : Bool
  createSchemaOk : Bool
  versionChanges : List Change
  versionOk : Bool
  sendOk : Bool
  promoteChanges : List Change
  promoteOk : Bool
  setSyncedOk : Bool

/-- `ShardedStore::site`: look the deployment up in the primary catalog,
`DeploymentNotFound` if it has no Site. -/
def ShardedStore.site (_s : ShardedStore) (env : Env) (id : SubgraphDeploymentId) :
    Except StoreError Site :=
  match env.sites id with
  | none => .error (.DeploymentNotFound id)
  | some site => .ok site

/-- `ShardedStore::store`: resolve the Site, then the store registered for
its shard, `UnknownShard` if the registry lacks it. -/
def ShardedStore.store (s : ShardedStore) (env : Env) (id : SubgraphDeploymentId) :
    Except StoreError (StoreHandle × Site) :=
  match s.site env id with
  | .error e => .error e
  | .ok site =>
    match lookupShard s.stores site.shard with
    | none => .error (.UnknownShard site.shard)
    | some store => .ok (store, site)

/-- The observable of a successfully routed per-deployment call: which
method was forwarded to which store with which site. -/
structure Dispatched where
  method : String
  handle : StoreHandle
  site : Site
  deriving DecidableEq, Repr

/-- `StoreTrait::get` for `ShardedStore`: resolves and forwards, errors
are returned to the caller. -/
def ShardedStore.get (s : ShardedStore) (env : Env) (key : EntityKey) :
    Except StoreError Dispatched :=
  match s.store env key.subgraph_id with
  | .error e => .error e
  | .ok (st, site) => .ok { method := "get", handle := st, site := site }

/-- `StoreTrait::supports_proof_of_indexing`: calls `self.store(&id).unwrap()`,
so a resolution error aborts instead of being returned. -/
def ShardedStore.supports_proof_of_indexing (s : ShardedStore) (env : Env)
    (id : SubgraphDeploymentId) : Outcome Dispatched :=
  match s.store env id with
  | .error _ => .panicked "called Result::unwrap on an Err value"
  | .ok (st, site) => .ok { method := "supports_proof_of_indexing", handle := st, site := site }

/-- `StoreTrait::get_proof_of_indexing`: also `self.store(&id).unwrap()`. -/
def ShardedStore.get_proof_of_indexing (s : ShardedStore) (env : Env)
    (id : SubgraphDeploymentId) : Outcome Dispatched :=
  match s.store env id with
  | .error _ => .panicked "called Result::unwrap on an Err value"
  | .ok (st, site) => .ok { method := "get_proof_of_indexing", handle := st, site := site }

/-- `StoreTrait::transact_block_operations` up to dispatch: the fail-fast
batch-affinity assertion, then resolution. -/
def ShardedStore.transact_block_operations (s : ShardedStore) (env : Env)
    (id : SubgraphDeploymentId) (mods : List EntityModification) : Outcome Dispatched :=
  if listInShard EntityModification.in_shard mods id then
    match s.store env id with
    | .error e => .err e
    | .ok (st, site) => .ok { method := "transact_block_operations", handle := st, site := site }
  else
    .panicked "can only transact operations within one shard"

/-- `StoreTrait::apply_metadata_operations` up to dispatch: the fail-fast
batch-affinity assertion, then resolution. -/
def ShardedStore.apply_metadata_operations (s : ShardedStore) (env : Env)
    (target : SubgraphDeploymentId) (ops : List MetadataOperation) : Outcome Dispatched :=
  if listInShard MetadataOperation.in_shard ops target then
    match s.store env target with
    | .error e => .err e
    | .ok (st, site) => .ok { method := "apply_metadata_operations", handle := st, site := site }
  else
    .panicked "can only apply metadata operations for SubgraphDeployment and its subobjects"

/-- The two connections whose scoped transactions the protocols open: the
entity connection of the data shard store and the primary connection. -/
inductive TxLabel where
  | dataTx
  | primaryTx
  deriving DecidableEq, Repr

/-- Observable effects of a protocol run. Transaction markers bracket each
committed scoped transaction; rolled-back transactions leave only a
begin/rollback pair since the backing engine discards their writes. -/
inductive Eff where
  | beginTx (l : TxLabel)
  | commitTx (l : TxLabel)
  | rollbackTx (l : TxLabel)
  | applyOps (ops : List MetadataOperation)
  | createSchema (nsp : String) (graft : Option Site)
  | promote (id : SubgraphDeploymentId)
  | setSynced (id : SubgraphDeploymentId)
  | publish (viaShard : String) (event : StoreEvent)
  deriving DecidableEq, Repr

/-- Run a scoped transaction: on success the body's effects commit, on
error they are rolled back and discarded from the observable trace. -/
def runTx (l : TxLabel) (body : Except StoreError (α × List Eff)) :
    Except StoreError α × List Eff :=
  match body with
  | .ok (a, effs) => (.ok a, (Eff.beginTx l :: effs) ++ [Eff.commitTx l])
  | .error e => (.error e, [Eff.beginTx l, Eff.rollbackTx l])

/-- Result and observable trace of a protocol run. -/
structure CResult where
  result : Outcome Unit
  trace : List Eff
  deriving DecidableEq, Repr

/-- Modelled from the spec: `primary::Connection::allocate_site` is
allocate-if-absent — it returns the existing Site for the deployment if
one exists, otherwise reserves the given shard and a fresh namespace. -/
def allocateSite (env : Env) (shard : String) (id : SubgraphDeploymentId) : Site :=
  match env.sites id with
  | some site => site
  | none => { deployment := id, shard := shard, nsp := "sgd" ++ id }

/-- Modelled from the spec: `primary::Connection::find_existing_site`
resolves a deployment's Site and fails when there is none. -/
def find_existing_site (env : Env) (id : SubgraphDeploymentId) : Except StoreError Site :=
  match env.sites id with
  | some site => .ok site
  | none => .error (.DeploymentNotFound id)

/-- The graft-base resolution of `create_deployment_internal`:
`deployment.graft_base.as_ref().map(|base| pconn.find_existing_site(base)).transpose()`. -/
def resolveGraft (env : Env) (dep : SubgraphDeploymentEntity) :
    Except StoreError (Option Site) :=
  match dep.graft_base with
  | none => .ok none
  | some base =>
    match find_existing_site env base with
    | .ok site => .ok (some site)
    | .error e => .error e

/-- The cross-shard graft error message, as built by the source's
`format!` call from the new site and the graft site. -/
def graftMessage (site g : Site) : String :=
  "Can not graft across shards. " ++ site.deployment ++ " is in shard " ++ site.shard ++
    ", and the base " ++ g.deployment ++ " is in shard " ++ g.shard

/-- Body of the data-shard transaction of `create_deployment_internal`:
check existence; apply the metadata-creation operations when `replace` is
set or the deployment does not yet exist, else an empty change-set; create
the physical schema (seeded from the graft site) only when the deployment
does not exist. -/
def dataTxBody (env : Env) (site : Site) (graftSite : Option Site)
    (dep : SubgraphDeploymentEntity) (schemaId : SubgraphDeploymentId)
    (replace : Bool) : Except StoreError (StoreEvent × List Eff) :=
  let ex := env.dShardExists site.deployment
  let step1 : Except StoreError (StoreEvent × List Eff) :=
    if replace || !ex then
      if env.applyOpsOk then
        let ops := dep.createOps schemaId
        .ok (env.applyOpsEvent ops, [Eff.applyOps ops])
      else
        .error (.other "apply_metadata_operations_with_conn")
    else
      .ok ({ changes := [] }, [])
  match step1 with
  | .error e => .error e
  | .ok (event, effs) =>
    if !ex then
      if env.createSchemaOk then
        .ok (event, effs ++ [Eff.createSchema site.nsp graftSite])
      else
        .error (.other "create_schema")
    else
      .ok (event, effs)

/-- Body of the primary transaction of `create_deployment_internal`:
`create_subgraph_version` (whose changes extend the data event), then
`send_store_event` on the merged event, both inside the transaction. -/
def primaryTxBody (env : Env) (event : StoreEvent) :
    Except StoreError (Unit × List Eff) :=
  if env.versionOk then
    let merged : StoreEvent := { changes := event.changes ++ env.versionChanges }
    if env.sendOk then
      .ok ((), [Eff.publish PRIMARY_SHARD merged])
    else
      .error (.other "send_store_event")
  else
    .error (.other "create_subgraph_version")

/-- The two sequential scoped transactions of `create_deployment_internal`:
the data-shard transaction produces the event the primary transaction
extends and publishes. -/
def createDeploymentTxs (env : Env) (site : Site) (graftSite : Option Site)
    (dep : SubgraphDeploymentEntity) (schemaId : SubgraphDeploymentId)
    (replace : Bool) : CResult :=
  match runTx .dataTx (dataTxBody env site graftSite dep schemaId replace) with
  | (.error e, tr1) => { result := .err e, trace := tr1 }
  | (.ok event, tr1) =>
    match runTx .primaryTx (primaryTxBody env event) with
    | (.error e, tr2) => { result := .err e, trace := tr1 ++ tr2 }
    | (.ok _, tr2) => { result := .ok (), trace := tr1 ++ tr2 }

/-- `create_deployment_internal`: release builds assert `!replace`; the
target shard is hardcoded to the primary; the deployment store is looked
up, a Site allocated, the graft base resolved and checked to share the
shard, then the two transactions run. -/
def createDeploymentInternal (s : ShardedStore) (env : Env) (schema : Schema)
    (dep : SubgraphDeploymentEntity) (replace : Bool) (debugAssertions : Bool) : CResult :=
  if replace && !debugAssertions then
    { result := .panicked "assertion failed: !replace", trace := [] }
  else
    let shard := PRIMARY_SHARD
    match lookupShard s.stores shard with
    | none => { result := .err (.UnknownShard shard), trace := [] }
    | some _deploymentStore =>
      let site := allocateSite env shard schema.id
      match resolveGraft env dep with
      | .error e => { result := .err e, trace := [] }
      | .ok graftSite =>
        match graftSite with
        | some g =>
          if g.shard != shard then
            { result := .err (.ConstraintViolation (graftMessage site g)), trace := [] }
          else
            createDeploymentTxs env site graftSite dep schema.id replace
        | none =>
          createDeploymentTxs env site graftSite dep schema.id replace

/-- `StoreTrait::create_subgraph_deployment`: forwards with `replace = false`. -/
def create_subgraph_deployment (s : ShardedStore) (env : Env) (schema : Schema)
    (dep : SubgraphDeploymentEntity) (debugAssertions : Bool) : CResult :=
  createDeploymentInternal s env schema dep false debugAssertions

/-- `StoreTrait::deployment_synced`: a primary transaction promoting the
deployment yields the event; the data-shard transaction marks it synced;
only then is the event sent, outside any transaction. -/
def deployment_synced (s : ShardedStore) (env : Env) (id : SubgraphDeploymentId) : CResult :=
  match s.store env id with
  | .error e => { result := .err e, trace := [] }
  | .ok _ =>
    match runTx .primaryTx
        (if env.promoteOk then
          .ok (StoreEvent.mk env.promoteChanges, [Eff.promote id])
        else
          .error (.other "promote_deployment")) with
    | (.error e, tr1) => { result := .err e, trace := tr1 }
    | (.ok event, tr1) =>
      match runTx .dataTx
          (if env.setSyncedOk then .ok ((), [Eff.setSynced id])
           else .error (.other "set_synced")) with
      | (.error e, tr2) => { result := .err e, trace := tr1 ++ tr2 }
      | (.ok _, tr2) =>
        if env.sendOk then
          { result := .ok (), trace := tr1 ++ tr2 ++ [Eff.publish PRIMARY_SHARD event] }
        else
          { result := .err (.other "send_store_event"), trace := tr1 ++ tr2 }

/-- Whether an effect is a publish. -/
def Eff.isPublish : Eff → Bool
  | .publish _ _ => true
  | _ => false

/-- Number of publish effects in a trace. -/
def countPublish (tr : List Eff) : Nat :=
  (tr.filter Eff.isPublish).length

/-- Shard affinity in the spec's vocabulary. -/
inductive Affinity where
  | primary
  | shardLocal
  deriving DecidableEq, Repr

/-- Definition following the spec's words, for comparison with the code:
the subgraph-name registry entry and the node-assignment record are
Primary, every other catalogued kind is ShardLocal. -/
def specClassifyType : MetadataType → Affinity
  | .Subgraph => .primary
  | .SubgraphDeploymentAssignment => .primary
  | _ => .shardLocal

/-- Definition following the spec's words: the affinity of a metadata
operation is that of the record kind it targets. -/
def specClassifyOp (op : MetadataOperation) : Affinity :=
  specClassifyType op.entity

/-- Definition following claim C4's words: a batch is classification-uniform
when every operation yields the same classification. -/
def specUniformBatch (ops : List MetadataOperation) : Bool :=
  match ops with
  | [] => true
  | o :: rest => rest.all (fun p => specClassifyOp p == specClassifyOp o)

/-- Definition following the amended claim's words: an entity modification
is shard-local for the target deployment when it is a metadata record of a
catalogued ShardLocal kind, or a data record keyed by that deployment. -/
def specShardLocalMod (m : EntityModification) (id : SubgraphDeploymentId) : Prop :=
  (isMeta m.entity_key.subgraph_id = true ∧
    ∃ t, MetadataType.fromStr m.entity_key.entity_type = some t ∧
      specClassifyType t = Affinity.shardLocal) ∨
  (isMeta m.entity_key.subgraph_id = false ∧ m.entity_key.subgraph_id = id)

/-- A concrete environment used by witnesses: one deployment `Qmbase` in
the primary shard, one deployment `Qmother` whose site names a shard that
is not configured. -/
def envA : Env :=
  { sites := fun i =>
      if i == "Qmbase" then some { deployment := "Qmbase", shard := "primary", nsp := "sgd1" }
      else if i == "Qmother" then some { deployment := "Qmother", shard := "shard_b", nsp := "sgd2" }
      else none
    dShardExists := fun i => i == "Qmbase"
    applyOpsEvent := fun _ => { changes := [{ tag := "meta" }] }
    applyOpsOk := true
    createSchemaOk := true
    versionChanges := [{ tag := "version" }]
    versionOk := true
    sendOk := true
    promoteChanges := [{ tag := "promote" }]
    promoteOk := true
    setSyncedOk := true }

/-- A concrete sharded store with only the primary shard configured. -/
def storeA : ShardedStore :=
  { primary := 0, stores := [(PRIMARY_SHARD, 0)] }

/-- A modification keyed to the metadata subgraph with an entity type that
is valid metadata but absent from the `MetadataType` enum. -/
def uncataloguedMod : EntityModification :=
  .remove { subgraph_id := METADATA_SUBGRAPH_ID, entity_type := "SubgraphVersion", entity_id := "1" }

/-- A one-element batch whose only operation targets a Primary-affinity
record kind, hence classification-uniform. -/
def primaryOpBatch : List MetadataOperation :=
  [.set .Subgraph "s1"]

/-- Claim C9: the classifier marks exactly the subgraph registry entry and
the node-assignment record as not living in the deployment's shard
(Primary), every other catalogued metadata kind as shard-local, and a
non-metadata entity modification as shard-local exactly when its key's
deployment id equals the target deployment. -/
theorem C9_classifier_assignment :
    ∀ id : SubgraphDeploymentId,
      (∀ t : MetadataType, t.in_shard id = false ↔
        (t = MetadataType.Subgraph ∨ t = MetadataType.SubgraphDeploymentAssignment)) ∧
      (∀ m : EntityModification, isMeta m.entity_key.subgraph_id = false →
        (m.in_shard id = true ↔ m.entity_key.subgraph_id = id)) := by
  intro id
  constructor
  · intro t
    cases t <;> simp [MetadataType.in_shard]
  · intro m h
    cases m <;>
      (simp only [EntityModification.entity_key] at h ⊢;
       simp [EntityModification.in_shard, EntityModification.entity_key, h])

/-- Witness for C9 at concrete inputs. -/
theorem C9_classifier_assignment_witness :
    MetadataType.in_shard MetadataType.Subgraph "Qmx" = false ∧
    EntityModification.in_shard
      (.remove { subgraph_id := "Qmx", entity_type := "Thing", entity_id := "1" }) "Qmx" = true := by
  constructor
  · exact ((C9_classifier_assignment "Qmx").1 MetadataType.Subgraph).2 (Or.inl rfl)
  · exact ((C9_classifier_assignment "Qmx").2 _ (by decide)).2 rfl

/-- Claim C3 counterexample: the claim says an uncatalogued metadata type
classifies ShardLocal; in the code the modification targeting the
uncatalogued `SubgraphVersion` type gets `in_shard = false`, the value the
Primary kinds get, while the catalogued ShardLocal kinds get `true`. -/
theorem C3_counterexample :
    EntityModification.in_shard uncataloguedMod "Qmx" = false ∧
    EntityModification.in_shard
      (.remove { subgraph_id := METADATA_SUBGRAPH_ID, entity_type := "SubgraphDeployment",
                 entity_id := "1" }) "Qmx" = true ∧
    EntityModification.in_shard
      (.remove { subgraph_id := METADATA_SUBGRAPH_ID, entity_type := "Subgraph",
                 entity_id := "1" }) "Qmx" = false := by
  decide

/-- Claim C3 amended: a metadata-keyed modification whose entity type is
not one of the catalogued MetadataType kinds classifies as NOT in the
deployment's own shard (`in_shard = false`, the Primary kinds' value) for
every target deployment; the default for uncatalogued types is
not-shard-local, never ShardLocal. -/
theorem C3_uncatalogued_default :
    ∀ (m : EntityModification) (id : SubgraphDeploymentId),
      isMeta m.entity_key.subgraph_id = true →
      MetadataType.fromStr m.entity_key.entity_type = none →
      EntityModification.in_shard m id = false := by
  intro m id hmeta hft
  cases m <;>
    simp_all [EntityModification.in_shard, EntityModification.entity_key]

/-- Witness for the amended C3 at a concrete input. -/
theorem C3_uncatalogued_default_witness :
    EntityModification.in_shard uncataloguedMod "Qmy" = false :=
  C3_uncatalogued_default uncataloguedMod "Qmy" (by decide) (by decide)

/-- Claim C4 counterexample: a classification-uniform batch of
Primary-affinity operations does NOT pass the batch-affinity check; the
Router's assertion rejects it (`in_shard` is false for the whole batch). -/
theorem C4_counterexample :
    specUniformBatch primaryOpBatch = true ∧
    listInShard MetadataOperation.in_shard primaryOpBatch "Qmx" = false ∧
    ShardedStore.apply_metadata_operations storeA envA "Qmx" primaryOpBatch =
      .panicked "can only apply metadata operations for SubgraphDeployment and its subobjects" := by
  refine ⟨by decide, by decide, rfl⟩

/-- Claim C4 amended: the batch-affinity check passes exactly when every
operation in the batch individually classifies shard-local for the target
deployment — for metadata operations, a catalogued ShardLocal kind; for
entity modifications, a catalogued ShardLocal metadata kind or a data key
with matching deployment id — and the Router's fail-fast assertions in
`transact_block_operations` and `apply_metadata_operations` panic on any
batch failing it, so in particular a uniform batch of Primary-affinity
operations is rejected. -/
theorem C4_batch_check :
    (∀ (ops : List MetadataOperation) (id : SubgraphDeploymentId),
      listInShard MetadataOperation.in_shard ops id = true ↔
        ∀ o ∈ ops, specClassifyOp o = Affinity.shardLocal) ∧
    (∀ (mods : List EntityModification) (id : SubgraphDeploymentId),
      listInShard EntityModification.in_shard mods id = true ↔
        ∀ m ∈ mods, specShardLocalMod m id) ∧
    (∀ (s : ShardedStore) (env : Env) (id : SubgraphDeploymentId)
        (ops : List MetadataOperation),
      listInShard MetadataOperation.in_shard ops id = false →
      ShardedStore.apply_metadata_operations s env id ops =
        .panicked "can only apply metadata operations for SubgraphDeployment and its subobjects") ∧
    (∀ (s : ShardedStore) (env : Env) (id : SubgraphDeploymentId)
        (mods : List EntityModification),
      listInShard EntityModification.in_shard mods id = false →
      ShardedStore.transact_block_operations s env id mods =
        .panicked "can only transact operations within one shard") := by
  refine ⟨?_, ?_, ?_, ?_⟩
  · intro ops id
    simp only [listInShard, List.all_eq_true]
    apply forall_congr'
    intro o
    apply imp_congr Iff.rfl
    obtain ⟨e, i⟩ | ⟨e, i⟩ | ⟨e, i⟩ := o <;> cases e <;>
      simp [MetadataOperation.in_shard, MetadataOperation.entity, MetadataType.in_shard,
        specClassifyOp, specClassifyType]
  · intro mods id
    simp only [listInShard, List.all_eq_true]
    apply forall_congr'
    intro m
    apply imp_congr Iff.rfl
    unfold specShardLocalMod EntityModification.in_shard
    rcases hmeta : isMeta m.entity_key.subgraph_id with _ | _
    · simp [hmeta]
    · rcases hft : MetadataType.fromStr m.entity_key.entity_type with _ | t
      · simp [hmeta, hft]
      · cases t <;> simp [hmeta, hft, MetadataType.in_shard, specClassifyType]
  · intro s env id ops h
    simp [ShardedStore.apply_metadata_operations, h]
  · intro s env id mods h
    simp [ShardedStore.transact_block_operations, h]

/-- Witness for the amended C4 at concrete inputs. -/
theorem C4_batch_check_witness :
    listInShard MetadataOperation.in_shard [MetadataOperation.set MetadataType.SubgraphManifest "m1"] "Qmx" = true ∧
    ShardedStore.apply_metadata_operations storeA envA "Qmy" primaryOpBatch =
      .panicked "can only apply metadata operations for SubgraphDeployment and its subobjects" := by
  constructor
  · exact (C4_batch_check.1 [MetadataOperation.set MetadataType.SubgraphManifest "m1"] "Qmx").2
      (by intro o ho; simp at ho; subst ho; rfl)
  · exact C4_batch_check.2.2.1 storeA envA "Qmy" primaryOpBatch (by decide)

/-- Claim C7: shard resolution yields `DeploymentNotFound` when the primary
catalog has no Site for the id, `UnknownShard` when the Site's shard is not
among the configured stores, and the (store, Site) pair otherwise. -/
theorem C7_resolution :
    ∀ (s : ShardedStore) (env : Env) (id : SubgraphDeploymentId),
      (env.sites id = none →
        s.store env id = .error (.DeploymentNotFound id)) ∧
      (∀ site, env.sites id = some site → lookupShard s.stores site.shard = none →
        s.store env id = .error (.UnknownShard site.shard)) ∧
      (∀ site st, env.sites id = some site → lookupShard s.stores site.shard = some st →
        s.store env id = .ok (st, site)) := by
  intro s env id
  refine ⟨?_, ?_, ?_⟩
  · intro h
    simp [ShardedStore.store, ShardedStore.site, h]
  · intro site h1 h2
    simp [ShardedStore.store, ShardedStore.site, h1, h2]
  · intro site st h1 h2
    simp [ShardedStore.store, ShardedStore.site, h1, h2]

/-- Witness for C7: all three outcomes on the concrete fixture. -/
theorem C7_resolution_witness :
    storeA.store envA "Qmnone" = .error (.DeploymentNotFound "Qmnone") ∧
    storeA.store envA "Qmother" = .error (.UnknownShard "shard_b") ∧
    storeA.store envA "Qmbase" =
      .ok (0, { deployment := "Qmbase", shard := "primary", nsp := "sgd1" }) := by
  refine ⟨?_, ?_, ?_⟩
  · exact (C7_resolution storeA envA "Qmnone").1 rfl
  · exact (C7_resolution storeA envA "Qmother").2.1 _ rfl rfl
  · exact (C7_resolution storeA envA "Qmbase").2.2 _ 0 rfl rfl

/-- Claim C8: constructing the sharded store with more than one shard is
rejected by the construction-time assertion, and construction succeeds
exactly when one shard is configured and it is the primary. -/
theorem C8_construction :
    ∀ stores : List (String × StoreHandle),
      (1 < stores.length →
        ShardedStore.new stores =
          .panicked "The sharded store can only handle one shard for now") ∧
      ((∃ s, ShardedStore.new stores = .ok s) ↔
        (stores.length = 1 ∧ ∃ p, lookupShard stores PRIMARY_SHARD = some p)) := by
  intro stores
  constructor
  · intro h
    have hne : (stores.length == 1) = false := by
      simp only [beq_eq_false_iff_ne]
      omega
    simp [ShardedStore.new, hne]
  · unfold ShardedStore.new
    rcases hlen : stores.length == 1 with _ | _
    · have hne : stores.length ≠ 1 := by simpa using hlen
      simp [hlen, hne]
    · have heq : stores.length = 1 := by simpa using hlen
      rcases hlk : lookupShard stores PRIMARY_SHARD with _ | p <;>
        simp [hlen, hlk, heq]

/-- Witness for C8: a two-shard map panics, the singleton primary map
constructs. -/
theorem C8_construction_witness :
    ShardedStore.new [(PRIMARY_SHARD, 0), ("shard_b", 1)] =
      .panicked "The sharded store can only handle one shard for now" ∧
    ∃ s, ShardedStore.new [(PRIMARY_SHARD, 0)] = .ok s := by
  constructor
  · exact (C8_construction [(PRIMARY_SHARD, 0), ("shard_b", 1)]).1 (by decide)
  · exact (C8_construction [(PRIMARY_SHARD, 0)]).2.mpr ⟨rfl, 0, rfl⟩

/-- Claim C10: when shard resolution fails, the two proof-of-indexing
methods panic (they unwrap the resolution result) while an ordinary
per-deployment operation such as `get` returns the typed error. -/
theorem C10_poi_unwrap :
    ∀ (s : ShardedStore) (env : Env) (id : SubgraphDeploymentId) (e : StoreError),
      s.store env id = .error e →
      (s.supports_proof_of_indexing env id =
        .panicked "called Result::unwrap on an Err value" ∧
       s.get_proof_of_indexing env id =
        .panicked "called Result::unwrap on an Err value" ∧
       ∀ t i, s.get env { subgraph_id := id, entity_type := t, entity_id := i } = .error e) := by
  intro s env id e h
  refine ⟨?_, ?_, ?_⟩
  · simp [ShardedStore.supports_proof_of_indexing, h]
  · simp [ShardedStore.get_proof_of_indexing, h]
  · intro t i
    simp [ShardedStore.get, h]

/-- Witness for C10 at a deployment with no Site. -/
theorem C10_poi_unwrap_witness :
    storeA.supports_proof_of_indexing envA "Qmnone" =
      .panicked "called Result::unwrap on an Err value" ∧
    storeA.get_proof_of_indexing envA "Qmnone" =
      .panicked "called Result::unwrap on an Err value" := by
  have h := C10_poi_unwrap storeA envA "Qmnone" (.DeploymentNotFound "Qmnone") rfl
  exact ⟨h.1, h.2.1⟩

lemma countPublish_append (a b : List Eff) :
    countPublish (a ++ b) = countPublish a + countPublish b := by
  induction a with
  | nil => simp [countPublish]
  | cons x xs ih =>
    rcases hx : x.isPublish with _ | _ <;>
      simp [countPublish, List.filter, hx] at ih ⊢ <;> omega

lemma countPublish_zero_of_no_publish (tr : List Eff)
    (h : ∀ x ∈ tr, x.isPublish = false) : countPublish tr = 0 := by
  induction tr with
  | nil => simp [countPublish]
  | cons x xs ih =>
    have hx := h x (by simp)
    have hxs := ih (fun y hy => h y (by simp [hy]))
    simp [countPublish, List.filter, hx] at hxs ⊢
    exact hxs

lemma publish_not_mem_of_no_publish (tr : List Eff)
    (h : ∀ x ∈ tr, x.isPublish = false) (sh : String) (ev : StoreEvent) :
    Eff.publish sh ev ∉ tr := by
  intro hmem
  have := h _ hmem
  simp [Eff.isPublish] at this

lemma dataTxBody_no_publish (env : Env) (site : Site) (g : Option Site)
    (dep : SubgraphDeploymentEntity) (sid : SubgraphDeploymentId) (rep : Bool)
    (ev : StoreEvent) (effs : List Eff)
    (h : dataTxBody env site g dep sid rep = .ok (ev, effs)) :
    ∀ x ∈ effs, x.isPublish = false := by
  rcases hex : env.dShardExists site.deployment with _ | _ <;>
  rcases hao : env.applyOpsOk with _ | _ <;>
  rcases hcs : env.createSchemaOk with _ | _ <;>
  rcases rep with _ | _ <;>
  simp [dataTxBody, hex, hao, hcs] at h <;>
  (try obtain ⟨h1, rfl⟩ := h) <;>
  (intro x hx; simp at hx) <;>
  (try rcases hx with rfl | rfl) <;>
  (try subst hx) <;>
  rfl

lemma primaryTxBody_ok (env : Env) (ev : StoreEvent) (a : Unit) (effs : List Eff)
    (h : primaryTxBody env ev = .ok (a, effs)) :
    effs = [Eff.publish PRIMARY_SHARD { changes := ev.changes ++ env.versionChanges }] ∧
      env.versionOk = true ∧ env.sendOk = true := by
  rcases hv : env.versionOk with _ | _ <;> rcases hs : env.sendOk with _ | _ <;>
    simp [primaryTxBody, hv, hs] at h <;> simp [h]

lemma primaryTxBody_err (env : Env) (ev : StoreEvent) (e : StoreError)
    (h : primaryTxBody env ev = .error e) :
    env.versionOk = false ∨ env.sendOk = false := by
  rcases hv : env.versionOk with _ | _ <;> rcases hs : env.sendOk with _ | _ <;>
    simp [primaryTxBody, hv, hs] at h <;> simp

lemma countPublish_cons_nonpublish (x : Eff) (tr : List Eff) (hx : x.isPublish = false) :
    countPublish (x :: tr) = countPublish tr := by
  simp [countPublish, List.filter_cons, hx]

lemma publish_in_commit_block {l : TxLabel} {effs : List Eff} {sh : String} {ev : StoreEvent}
    (h : Eff.publish sh ev ∈ (Eff.beginTx l :: effs) ++ [Eff.commitTx l]) :
    Eff.publish sh ev ∈ effs := by
  rcases List.mem_append.mp h with h1 | h1
  · rcases List.mem_cons.mp h1 with h2 | h2
    · exact absurd h2 (by simp)
    · exact h2
  · exact absurd (List.mem_singleton.mp h1) (by simp)

lemma countPublish_commit_block (l : TxLabel) (effs : List Eff) :
    countPublish ((Eff.beginTx l :: effs) ++ [Eff.commitTx l]) = countPublish effs := by
  rw [countPublish_append, countPublish_cons_nonpublish _ _ (by rfl)]
  simp [countPublish, List.filter, Eff.isPublish]

/-- The full publication contract of `createDeploymentTxs`, shared by the
claims about the creation protocol. -/
lemma createDeploymentTxs_publish (env : Env) (site : Site) (g : Option Site)
    (dep : SubgraphDeploymentEntity) (sid : SubgraphDeploymentId) (rep : Bool) :
    countPublish (createDeploymentTxs env site g dep sid rep).trace ≤ 1 ∧
    ((createDeploymentTxs env site g dep sid rep).result = .ok () ↔
      countPublish (createDeploymentTxs env site g dep sid rep).trace = 1) ∧
    (∀ sh ev, Eff.publish sh ev ∈ (createDeploymentTxs env site g dep sid rep).trace →
      sh = PRIMARY_SHARD ∧
      Eff.commitTx .dataTx ∈ (createDeploymentTxs env site g dep sid rep).trace ∧
      Eff.commitTx .primaryTx ∈ (createDeploymentTxs env site g dep sid rep).trace ∧
      (∃ pre post, (createDeploymentTxs env site g dep sid rep).trace =
          pre ++ Eff.publish sh ev :: post ∧ Eff.commitTx .dataTx ∈ pre) ∧
      ∃ dEv dEffs, dataTxBody env site g dep sid rep = .ok (dEv, dEffs) ∧
        ev = { changes := dEv.changes ++ env.versionChanges }) := by
  rcases h1 : dataTxBody env site g dep sid rep with e | ⟨dEv, dEffs⟩
  · have htr : (createDeploymentTxs env site g dep sid rep).trace =
        [Eff.beginTx .dataTx, Eff.rollbackTx .dataTx] := by
      simp [createDeploymentTxs, runTx, h1]
    have hres : (createDeploymentTxs env site g dep sid rep).result = .err e := by
      simp [createDeploymentTxs, runTx, h1]
    refine ⟨by rw [htr]; decide, by rw [htr, hres]; simp; decide, ?_⟩
    intro sh ev hmem
    rw [htr] at hmem
    rcases List.mem_cons.mp hmem with h2 | h2
    · exact absurd h2 (by simp)
    · exact absurd (List.mem_singleton.mp h2) (by simp)
  · have hnp := dataTxBody_no_publish env site g dep sid rep dEv dEffs h1
    have hz : countPublish dEffs = 0 := countPublish_zero_of_no_publish dEffs hnp
    rcases h2 : primaryTxBody env dEv with e2 | ⟨a2, pEffs⟩
    · have htr : (createDeploymentTxs env site g dep sid rep).trace =
          ((Eff.beginTx .dataTx :: dEffs) ++ [Eff.commitTx .dataTx]) ++
            [Eff.beginTx .primaryTx, Eff.rollbackTx .primaryTx] := by
        simp [createDeploymentTxs, runTx, h1, h2]
      have hres : (createDeploymentTxs env site g dep sid rep).result = .err e2 := by
        simp [createDeploymentTxs, runTx, h1, h2]
      have hcnt : countPublish (createDeploymentTxs env site g dep sid rep).trace = 0 := by
        rw [htr, countPublish_append, countPublish_commit_block, hz]
        rfl
      refine ⟨by rw [hcnt]; omega, by rw [hcnt, hres]; simp, ?_⟩
      intro sh ev hmem
      rw [htr] at hmem
      rcases List.mem_append.mp hmem with h3 | h3
      · exact absurd (hnp _ (publish_in_commit_block h3)) (by simp [Eff.isPublish])
      · rcases List.mem_cons.mp h3 with h4 | h4
        · exact absurd h4 (by simp)
        · exact absurd (List.mem_singleton.mp h4) (by simp)
    · obtain ⟨rfl, hv, hs⟩ := primaryTxBody_ok env dEv a2 pEffs h2
      have htr : (createDeploymentTxs env site g dep sid rep).trace =
          ((Eff.beginTx .dataTx :: dEffs) ++ [Eff.commitTx .dataTx]) ++
            ((Eff.beginTx .primaryTx ::
              [Eff.publish PRIMARY_SHARD { changes := dEv.changes ++ env.versionChanges }]) ++
              [Eff.commitTx .primaryTx]) := by
        simp [createDeploymentTxs, runTx, h1, h2]
      have hres : (createDeploymentTxs env site g dep sid rep).result = .ok () := by
        simp [createDeploymentTxs, runTx, h1, h2]
      have hcnt : countPublish (createDeploymentTxs env site g dep sid rep).trace = 1 := by
        rw [htr, countPublish_append, countPublish_commit_block, hz,
          countPublish_commit_block]
        rfl
      refine ⟨by rw [hcnt], by rw [hcnt, hres]; simp, ?_⟩
      intro sh ev hmem
      have hone : Eff.publish sh ev =
          Eff.publish PRIMARY_SHARD { changes := dEv.changes ++ env.versionChanges } := by
        rw [htr] at hmem
        rcases List.mem_append.mp hmem with h3 | h3
        · exact absurd (hnp _ (publish_in_commit_block h3)) (by simp [Eff.isPublish])
        · exact List.mem_singleton.mp (publish_in_commit_block h3)
      injection hone with hsh hev
      subst hsh
      subst hev
      refine ⟨rfl, ?_, ?_, ?_, dEv, dEffs, rfl, rfl⟩
      · rw [htr]; simp
      · rw [htr]; simp
      · refine ⟨(Eff.beginTx .dataTx :: dEffs) ++ [Eff.commitTx .dataTx] ++
          [Eff.beginTx .primaryTx], [Eff.commitTx .primaryTx], ?_, by simp⟩
        rw [htr]
        simp

/-- Deployment descriptor fixtures for witnesses: no graft, a graft whose
base lives in the primary shard, and a graft whose base lives in another
shard. -/
def depA : SubgraphDeploymentEntity :=
  { graft_base := none, createOps := fun _ => [] }

/-- Graft descriptor whose base `Qmbase` lives in the primary shard. -/
def depGraftSame : SubgraphDeploymentEntity :=
  { graft_base := some "Qmbase", createOps := fun _ => [] }

/-- Graft descriptor whose base `Qmother` lives in shard `shard_b`. -/
def depGraftCross : SubgraphDeploymentEntity :=
  { graft_base := some "Qmother", createOps := fun _ => [] }

/-- Reduction of `create_deployment_internal` to its two transactions when
the early checks pass: no release-build replace assertion, the primary
store configured, the graft base resolved and sharing the primary shard. -/
lemma createDeploymentInternal_run (s : ShardedStore) (env : Env) (schema : Schema)
    (dep : SubgraphDeploymentEntity) (replace dbg : Bool) (st : StoreHandle)
    (g : Option Site)
    (hrep : (replace && !dbg) = false)
    (hls : lookupShard s.stores PRIMARY_SHARD = some st)
    (hrg : resolveGraft env dep = .ok g)
    (hok : ∀ gs, g = some gs → gs.shard = PRIMARY_SHARD) :
    createDeploymentInternal s env schema dep replace dbg =
      createDeploymentTxs env (allocateSite env PRIMARY_SHARD schema.id) g dep schema.id
        replace := by
  unfold createDeploymentInternal
  simp only [hrep, Bool.false_eq_true, if_false, hls, hrg]
  rcases g with _ | gs
  · rfl
  · have hsh := hok gs rfl
    simp [hsh]

/-- Reduction of `create_deployment_internal` to the cross-shard graft
error when the graft base's shard differs from the primary. -/
lemma createDeploymentInternal_graft_err (s : ShardedStore) (env : Env) (schema : Schema)
    (dep : SubgraphDeploymentEntity) (replace dbg : Bool) (st : StoreHandle) (gs : Site)
    (hrep : (replace && !dbg) = false)
    (hls : lookupShard s.stores PRIMARY_SHARD = some st)
    (hrg : resolveGraft env dep = .ok (some gs))
    (hsh : gs.shard ≠ PRIMARY_SHARD) :
    createDeploymentInternal s env schema dep replace dbg =
      { result := .err (.ConstraintViolation
          (graftMessage (allocateSite env PRIMARY_SHARD schema.id) gs)), trace := [] } := by
  unfold createDeploymentInternal
  simp only [hrep, Bool.false_eq_true, if_false, hls, hrg]
  simp [hsh]

/-- Claim C5: in the creation protocol the two transactions' change-sets
are merged into one StoreEvent which is published at most once, always
through the primary; a publish is observable only together with both
transactions' commits (the send runs inside the primary transaction and
becomes visible atomically at its commit) and strictly after the
data-shard commit, and the call succeeds exactly when the one publish
happened — so no event is observable for a partially created deployment. -/
theorem C5_creation_publish :
    ∀ (s : ShardedStore) (env : Env) (schema : Schema) (dep : SubgraphDeploymentEntity)
      (replace dbg : Bool),
      countPublish (createDeploymentInternal s env schema dep replace dbg).trace ≤ 1 ∧
      ((createDeploymentInternal s env schema dep replace dbg).result = .ok () ↔
        countPublish (createDeploymentInternal s env schema dep replace dbg).trace = 1) ∧
      (∀ sh ev,
        Eff.publish sh ev ∈ (createDeploymentInternal s env schema dep replace dbg).trace →
        sh = PRIMARY_SHARD ∧
        Eff.commitTx .dataTx ∈ (createDeploymentInternal s env schema dep replace dbg).trace ∧
        Eff.commitTx .primaryTx ∈ (createDeploymentInternal s env schema dep replace dbg).trace ∧
        (∃ pre post, (createDeploymentInternal s env schema dep replace dbg).trace =
            pre ++ Eff.publish sh ev :: post ∧ Eff.commitTx .dataTx ∈ pre) ∧
        (∃ g dEv dEffs, resolveGraft env dep = .ok g ∧
          dataTxBody env (allocateSite env PRIMARY_SHARD schema.id) g dep schema.id replace =
            .ok (dEv, dEffs) ∧
          ev = { changes := dEv.changes ++ env.versionChanges })) := by
  intro s env schema dep replace dbg
  rcases hrep : replace && !dbg with _ | _
  · rcases hls : lookupShard s.stores PRIMARY_SHARD with _ | st
    · have hred : createDeploymentInternal s env schema dep replace dbg =
          { result := .err (.UnknownShard PRIMARY_SHARD), trace := [] } := by
        unfold createDeploymentInternal
        simp only [hrep, Bool.false_eq_true, if_false, hls]
      rw [hred]
      simp [countPublish]
    · rcases hrg : resolveGraft env dep with e | g
      · have hred : createDeploymentInternal s env schema dep replace dbg =
            { result := .err e, trace := [] } := by
          unfold createDeploymentInternal
          simp only [hrep, Bool.false_eq_true, if_false, hls, hrg]
        rw [hred]
        simp [countPublish]
      · rcases g with _ | gs
        · rw [createDeploymentInternal_run s env schema dep replace dbg st none hrep hls hrg
            (fun gs h => by cases h)]
          obtain ⟨hA, hB, hC⟩ := createDeploymentTxs_publish env
            (allocateSite env PRIMARY_SHARD schema.id) none dep schema.id replace
          refine ⟨hA, hB, ?_⟩
          intro sh ev hmem
          obtain ⟨hsh, hc1, hc2, hpre, dEv, dEffs, hd, hev⟩ := hC sh ev hmem
          exact ⟨hsh, hc1, hc2, hpre, none, dEv, dEffs, rfl, hd, hev⟩
        · by_cases hsh : gs.shard = PRIMARY_SHARD
          · rw [createDeploymentInternal_run s env schema dep replace dbg st (some gs) hrep
              hls hrg (fun gs2 h => by cases h; exact hsh)]
            obtain ⟨hA, hB, hC⟩ := createDeploymentTxs_publish env
              (allocateSite env PRIMARY_SHARD schema.id) (some gs) dep schema.id replace
            refine ⟨hA, hB, ?_⟩
            intro sh ev hmem
            obtain ⟨hsh2, hc1, hc2, hpre, dEv, dEffs, hd, hev⟩ := hC sh ev hmem
            exact ⟨hsh2, hc1, hc2, hpre, some gs, dEv, dEffs, rfl, hd, hev⟩
          · rw [createDeploymentInternal_graft_err s env schema dep replace dbg st gs hrep
              hls hrg hsh]
            simp [countPublish]
  · have hred : createDeploymentInternal s env schema dep replace dbg =
        { result := .panicked "assertion failed: !replace", trace := [] } := by
      unfold createDeploymentInternal
      simp only [hrep, if_true]
    rw [hred]
    simp [countPublish]

/-- Witness for C5: on the concrete fixture the creation succeeds and
publishes exactly one event. -/
theorem C5_creation_publish_witness :
    countPublish (createDeploymentInternal storeA envA { id := "Qmnew" } depA false true).trace
      = 1 :=
  (C5_creation_publish storeA envA { id := "Qmnew" } depA false true).2.1.mp (by decide)

/-- Claim C6: `deployment_synced` publishes at most one StoreEvent, through
the primary and carrying the promote change-set; the call succeeds exactly
when that one publish happened; if either the primary promote transaction
or the shard-local mark-synced transaction fails, nothing is published;
and a publish is always the last step, strictly after both commits. -/
theorem C6_promote_publish :
    ∀ (s : ShardedStore) (env : Env) (id : SubgraphDeploymentId),
      countPublish (deployment_synced s env id).trace ≤ 1 ∧
      ((deployment_synced s env id).result = .ok () ↔
        countPublish (deployment_synced s env id).trace = 1) ∧
      (env.promoteOk = false ∨ env.setSyncedOk = false →
        countPublish (deployment_synced s env id).trace = 0) ∧
      (∀ sh ev, Eff.publish sh ev ∈ (deployment_synced s env id).trace →
        sh = PRIMARY_SHARD ∧ ev = { changes := env.promoteChanges } ∧
        ∃ pre, (deployment_synced s env id).trace = pre ++ [Eff.publish sh ev] ∧
          Eff.commitTx .primaryTx ∈ pre ∧ Eff.commitTx .dataTx ∈ pre) := by
  intro s env id
  rcases hst : s.store env id with e | pr
  · simp [deployment_synced, hst, countPublish]
  · rcases hpo : env.promoteOk with _ | _
    · simp [deployment_synced, hst, hpo, runTx, countPublish, List.filter, Eff.isPublish]
    · rcases hss : env.setSyncedOk with _ | _
      · simp [deployment_synced, hst, hpo, hss, runTx, countPublish, List.filter,
          Eff.isPublish]
      · rcases hsend : env.sendOk with _ | _
        · simp [deployment_synced, hst, hpo, hss, hsend, runTx, countPublish,
            List.filter, Eff.isPublish]
        · have htr : (deployment_synced s env id).trace =
              [Eff.beginTx .primaryTx, Eff.promote id, Eff.commitTx .primaryTx,
               Eff.beginTx .dataTx, Eff.setSynced id, Eff.commitTx .dataTx,
               Eff.publish PRIMARY_SHARD { changes := env.promoteChanges }] := by
            simp [deployment_synced, hst, hpo, hss, hsend, runTx]
          have hres : (deployment_synced s env id).result = .ok () := by
            simp [deployment_synced, hst, hpo, hss, hsend, runTx]
          have hcnt : countPublish (deployment_synced s env id).trace = 1 := by
            rw [htr]; rfl
          refine ⟨by rw [hcnt], by rw [hres, hcnt]; simp, by simp [hpo, hss], ?_⟩
          intro sh ev hmem
          rw [htr] at hmem
          simp only [List.mem_cons, List.not_mem_nil, or_false] at hmem
          rcases hmem with h | h | h | h | h | h | h
          · exact absurd h (by simp)
          · exact absurd h (by simp)
          · exact absurd h (by simp)
          · exact absurd h (by simp)
          · exact absurd h (by simp)
          · exact absurd h (by simp)
          · injection h with hsh hev
            subst hsh
            subst hev
            refine ⟨rfl, rfl, [Eff.beginTx .primaryTx, Eff.promote id,
              Eff.commitTx .primaryTx, Eff.beginTx .dataTx, Eff.setSynced id,
              Eff.commitTx .dataTx], ?_, by simp, by simp⟩
            rw [htr]
            rfl

/-- Witness for C6: on the concrete fixture the promotion succeeds and
publishes exactly one event. -/
theorem C6_promote_publish_witness :
    countPublish (deployment_synced storeA envA "Qmbase").trace = 1 :=
  (C6_promote_publish storeA envA "Qmbase").2.1.mp (by decide)

/-- Claim C1: when the deployment already exists in the data shard, a
creation call with `replace = false` yields an empty change-set from the
data-shard transaction, no schema creation and no metadata operations;
with `replace = true` (debug builds) the metadata-creation operations are
re-applied, still without re-creating the schema. -/
theorem C1_idempotent_creation :
    ∀ (s : ShardedStore) (env : Env) (schema : Schema) (dep : SubgraphDeploymentEntity)
      (dbg : Bool) (st : StoreHandle) (g : Option Site),
      lookupShard s.stores PRIMARY_SHARD = some st →
      resolveGraft env dep = .ok g →
      (∀ gs, g = some gs → gs.shard = PRIMARY_SHARD) →
      env.dShardExists (allocateSite env PRIMARY_SHARD schema.id).deployment = true →
      (dataTxBody env (allocateSite env PRIMARY_SHARD schema.id) g dep schema.id false =
          .ok ({ changes := [] }, []) ∧
       (∀ nsp gr, Eff.createSchema nsp gr ∉
          (createDeploymentInternal s env schema dep false dbg).trace) ∧
       (∀ ops, Eff.applyOps ops ∉
          (createDeploymentInternal s env schema dep false dbg).trace) ∧
       (env.applyOpsOk = true →
          Eff.applyOps (dep.createOps schema.id) ∈
            (createDeploymentInternal s env schema dep true true).trace ∧
          ∀ nsp gr, Eff.createSchema nsp gr ∉
            (createDeploymentInternal s env schema dep true true).trace)) := by
  intro s env schema dep dbg st g hls hrg hok hex
  have hdb : dataTxBody env (allocateSite env PRIMARY_SHARD schema.id) g dep schema.id false =
      .ok ({ changes := [] }, []) := by
    simp [dataTxBody, hex]
  have hredF := createDeploymentInternal_run s env schema dep false dbg st g (by simp) hls
    hrg hok
  have hredT := createDeploymentInternal_run s env schema dep true true st g (by simp) hls
    hrg hok
  refine ⟨hdb, ?_, ?_, ?_⟩
  · intro nsp gr
    rw [hredF]
    rcases h2 : primaryTxBody env { changes := [] } with e | ⟨a, pEffs⟩
    · simp [createDeploymentTxs, runTx, hdb, h2]
    · obtain ⟨rfl, hv, hs⟩ := primaryTxBody_ok env _ a pEffs h2
      simp [createDeploymentTxs, runTx, hdb, h2]
  · intro ops
    rw [hredF]
    rcases h2 : primaryTxBody env { changes := [] } with e | ⟨a, pEffs⟩
    · simp [createDeploymentTxs, runTx, hdb, h2]
    · obtain ⟨rfl, hv, hs⟩ := primaryTxBody_ok env _ a pEffs h2
      simp [createDeploymentTxs, runTx, hdb, h2]
  · intro hao
    have hdbT : dataTxBody env (allocateSite env PRIMARY_SHARD schema.id) g dep schema.id
        true = .ok (env.applyOpsEvent (dep.createOps schema.id),
          [Eff.applyOps (dep.createOps schema.id)]) := by
      simp [dataTxBody, hex, hao]
    constructor
    · rw [hredT]
      rcases h2 : primaryTxBody env (env.applyOpsEvent (dep.createOps schema.id)) with
        e | ⟨a, pEffs⟩
      · simp [createDeploymentTxs, runTx, hdbT, h2]
      · obtain ⟨rfl, hv, hs⟩ := primaryTxBody_ok env _ a pEffs h2
        simp [createDeploymentTxs, runTx, hdbT, h2]
    · intro nsp gr
      rw [hredT]
      rcases h2 : primaryTxBody env (env.applyOpsEvent (dep.createOps schema.id)) with
        e | ⟨a, pEffs⟩
      · simp [createDeploymentTxs, runTx, hdbT, h2]
      · obtain ⟨rfl, hv, hs⟩ := primaryTxBody_ok env _ a pEffs h2
        simp [createDeploymentTxs, runTx, hdbT, h2]

/-- Witness for C1: on the fixture `Qmbase`, which already exists in the
data shard, the data-shard transaction of a `replace = false` creation
yields the empty change-set. -/
theorem C1_idempotent_creation_witness :
    dataTxBody envA { deployment := "Qmbase", shard := "primary", nsp := "sgd1" } none depA
      "Qmbase" false = .ok ({ changes := [] }, []) := by
  have h := C1_idempotent_creation storeA envA { id := "Qmbase" } depA true 0 none rfl rfl
    (fun gs hgs => by cases hgs) (by decide)
  exact h.1

/-- Claim C2: a graft base in a different shard than the new deployment
fails the creation with a `ConstraintViolation` whose message carries both
deployment ids and both shard names; with equal shards the creation
proceeds and the new schema is created seeded from the graft base's site. -/
theorem C2_graft_shard :
    ∀ (s : ShardedStore) (env : Env) (schema : Schema) (dep : SubgraphDeploymentEntity)
      (dbg : Bool) (st : StoreHandle) (b : SubgraphDeploymentId) (g : Site),
      lookupShard s.stores PRIMARY_SHARD = some st →
      env.sites schema.id = none →
      dep.graft_base = some b →
      env.sites b = some g →
      ((g.shard ≠ PRIMARY_SHARD →
        createDeploymentInternal s env schema dep false dbg =
          { result := .err (.ConstraintViolation
              ("Can not graft across shards. " ++ schema.id ++ " is in shard " ++
                PRIMARY_SHARD ++ ", and the base " ++ g.deployment ++ " is in shard " ++
                g.shard)),
            trace := [] }) ∧
       (g.shard = PRIMARY_SHARD →
        env.dShardExists schema.id = false →
        env.applyOpsOk = true →
        env.createSchemaOk = true →
        (Eff.createSchema ("sgd" ++ schema.id) (some g) ∈
          (createDeploymentInternal s env schema dep false dbg).trace ∧
         (env.versionOk = true → env.sendOk = true →
          (createDeploymentInternal s env schema dep false dbg).result = .ok ())))) := by
  intro s env schema dep dbg st b g hls hnone hgb hgsite
  have hsite : allocateSite env PRIMARY_SHARD schema.id =
      { deployment := schema.id, shard := PRIMARY_SHARD, nsp := "sgd" ++ schema.id } := by
    simp [allocateSite, hnone]
  have hrg : resolveGraft env dep = .ok (some g) := by
    simp [resolveGraft, hgb, find_existing_site, hgsite]
  constructor
  · intro hne
    have h := createDeploymentInternal_graft_err s env schema dep false dbg st g (by simp)
      hls hrg hne
    rw [h, hsite]
    rfl
  · intro heq hde hao hcs
    have hrun := createDeploymentInternal_run s env schema dep false dbg st (some g)
      (by simp) hls hrg (fun gs2 h2 => by cases h2; exact heq)
    have hdb : dataTxBody env (allocateSite env PRIMARY_SHARD schema.id) (some g) dep
        schema.id false = .ok (env.applyOpsEvent (dep.createOps schema.id),
          [Eff.applyOps (dep.createOps schema.id),
           Eff.createSchema ("sgd" ++ schema.id) (some g)]) := by
      rw [hsite]
      simp [dataTxBody, hde, hao, hcs]
    constructor
    · rw [hrun]
      rcases h2 : primaryTxBody env (env.applyOpsEvent (dep.createOps schema.id)) with
        e | ⟨a, pEffs⟩
      · simp [createDeploymentTxs, runTx, hdb, h2]
      · obtain ⟨rfl, hv, hs⟩ := primaryTxBody_ok env _ a pEffs h2
        simp [createDeploymentTxs, runTx, hdb, h2]
    · intro hv hs
      rw [hrun]
      have h2 : primaryTxBody env (env.applyOpsEvent (dep.createOps schema.id)) =
          .ok ((), [Eff.publish PRIMARY_SHARD
            { changes := (env.applyOpsEvent (dep.createOps schema.id)).changes ++
                env.versionChanges }]) := by
        simp [primaryTxBody, hv, hs]
      simp [createDeploymentTxs, runTx, hdb, h2]

/-- Witness for C2: on the fixtures, grafting `Qmnew` from the
foreign-shard base `Qmother` yields the ConstraintViolation with both ids
and shard names, and grafting from the in-shard base `Qmbase` creates the
schema seeded from that base's site. -/
theorem C2_graft_shard_witness :
    (createDeploymentInternal storeA envA { id := "Qmnew" } depGraftCross false true).result =
      .err (.ConstraintViolation
        ("Can not graft across shards. " ++ "Qmnew" ++ " is in shard " ++ PRIMARY_SHARD ++
          ", and the base " ++ "Qmother" ++ " is in shard " ++ "shard_b")) ∧
    Eff.createSchema ("sgd" ++ "Qmnew")
        (some { deployment := "Qmbase", shard := "primary", nsp := "sgd1" }) ∈
      (createDeploymentInternal storeA envA { id := "Qmnew" } depGraftSame false true).trace := by
  constructor
  · have h := (C2_graft_shard storeA envA { id := "Qmnew" } depGraftCross true 0 "Qmother"
      { deployment := "Qmother", shard := "shard_b", nsp := "sgd2" } rfl rfl rfl rfl).1
      (by decide)
    rw [h]
  · have h := (C2_graft_shard storeA envA { id := "Qmnew" } depGraftSame true 0 "Qmbase"
      { deployment := "Qmbase", shard := "primary", nsp := "sgd1" } rfl rfl rfl rfl).2
      rfl (by decide) rfl rfl
    exact h.1

end ShardedStoreModel
